import Mathlib

/-!
Verification of the kaizenflow dataflow framework against its specification.

The Python sources under `core/dataflow/models.py`, `core/dataflow/runners.py`,
`helpers/joblib_helpers.py` and
`im_v2/common/data/transform/test/generate_pq_example_data.py` are shallowly
embedded below: dataframe columns become lists of optional rationals (`none`
models a pandas `NaN`), fallible constructors and assertions become `Except`,
and the handful of external collaborators whose source is not part of the
excerpt (the scipy bounded optimizer, the sklearn estimators, the
`DataSource` node of the graph engine) are abstracted by explicit function
parameters constrained by their documented contracts.
-/

namespace Kaizenflow

/-- A dataframe cell: `none` models a pandas `NaN`. -/
abbrev Val := Option ℚ

/-- Pandas `Series.shift(p)`: row `i` of the output holds row `i - p` of the
input when that row exists, and `NaN` otherwise.  The length is unchanged. -/
def pdShift (p : Int) (xs : List Val) : List Val :=
  (List.range xs.length).map fun (i : Nat) =>
    if (i : Int) - p < 0 then none else xs.getD ((i : Int) - p).toNat none

theorem pdShift_length (p : Int) (xs : List Val) :
    (pdShift p xs).length = xs.length := by
  simp [pdShift]

theorem pdShift_getD (p : Int) (xs : List Val) (i : Nat) :
    (pdShift p xs).getD i none =
      if i < xs.length then
        (if (i : Int) - p < 0 then none else xs.getD ((i : Int) - p).toNat none)
      else none := by
  unfold pdShift
  rcases Nat.lt_or_ge i xs.length with h | h
  · rw [List.getD_eq_getElem?_getD, List.getElem?_map,
      List.getElem?_range h]
    simp [h]
  · rw [List.getD_eq_getElem?_getD, List.getElem?_map,
      List.getElem?_eq_none (by simpa using h)]
    simp [Nat.not_lt.mpr h]

/-- Shifting by `0` is the identity. -/
theorem pdShift_zero (xs : List Val) : pdShift 0 xs = xs := by
  unfold pdShift
  apply List.ext_getElem
  · simp
  · intro i h1 h2
    simp [List.getD_eq_getElem?_getD, List.getElem?_eq_getElem h2]

/-- A named dataframe column. -/
structure Col where
  name : String
  vals : List Val
deriving DecidableEq

/-- The spec side of the forward-target description: the input column
"shifted backward by `steps_ahead` rows", i.e. row `i` of the output holds
row `i + steps_ahead` of the input when that row exists and `NaN` otherwise. -/
def shiftBackSpec (k : Nat) (xs : List Val) : List Val :=
  (List.range xs.length).map fun i =>
    if i + k < xs.length then xs.getD (i + k) none else none

/-- For a non-negative horizon, the pandas `shift(-k)` used by the code agrees
with the spec's "shifted backward by `k` rows". -/
theorem pdShift_neg_eq_shiftBackSpec (k : Nat) (xs : List Val) :
    pdShift (-(k : Int)) xs = shiftBackSpec k xs := by
  unfold pdShift shiftBackSpec
  apply List.map_congr_left
  intro i _
  have h0 : ¬ ((i : Int) - (-(k : Int)) < 0) := by omega
  have h1 : ((i : Int) - (-(k : Int))).toNat = i + k := by omega
  rw [if_neg h0, h1]
  rcases Nat.lt_or_ge (i + k) xs.length with h | h
  · simp [h]
  · rw [if_neg (Nat.not_lt.mpr h), List.getD_eq_getElem?_getD,
      List.getElem?_eq_none (by simpa using h)]
    rfl

/-! ### `core/dataflow/models.py` — `ContinuousSkLearnModel` -/

/-- State of a `ContinuousSkLearnModel` node after a successful `__init__`. -/
structure ContinuousSkLearnModel where
  nid : String
  steps_ahead : Int
  col_mode : String
  nan_mode : String
deriving DecidableEq

/-- `ContinuousSkLearnModel.__init__`: asserts
`dbg.dassert_lte(0, steps_ahead, "Non-causal prediction attempted! Aborting...")`,
defaults `col_mode` to `"replace_all"` (checked against
`["replace_all", "merge_all"]`) and `nan_mode` to `"raise"`. -/
def ContinuousSkLearnModel.init (nid : String) (steps_ahead : Int)
    (col_mode : Option String) (nan_mode : Option String) :
    Except String ContinuousSkLearnModel :=
  if ¬ (0 ≤ steps_ahead) then
    .error "Non-causal prediction attempted! Aborting..."
  else
    let cm := col_mode.getD "replace_all"
    if ¬ (cm = "replace_all" ∨ cm = "merge_all") then
      .error "col_mode not in [replace_all, merge_all]"
    else
      .ok { nid := nid, steps_ahead := steps_ahead, col_mode := cm,
            nan_mode := nan_mode.getD "raise" }

/-- `ContinuousSkLearnModel._get_fwd_y_df`, restricted to one target column:
`df[y_vars].shift(-self._steps_ahead).rename(columns=mapper)` with
`mapper y = str(y) + "_%i" % self._steps_ahead`. -/
def ContinuousSkLearnModel.get_fwd_y_col (m : ContinuousSkLearnModel)
    (y : Col) : Col :=
  { name := y.name ++ "_" ++ toString m.steps_ahead
  , vals := pdShift (-m.steps_ahead) y.vals }

/-! ### `core/dataflow/models.py` — `SmaModel` -/

/-- State of an `SmaModel` node after a successful `__init__`. -/
structure SmaModel where
  nid : String
  col : String
  steps_ahead : Int
  tau : Option ℚ
  must_learn_tau : Bool
  min_tau_periods : ℚ
  col_mode : String
  nan_mode : String
deriving DecidableEq

/-- `SmaModel.__init__`: asserts that the column list has one element and
`dbg.dassert_lte(0, steps_ahead, "Non-causal prediction attempted! Aborting...")`;
`nan_mode` defaults to `"raise"`, `col_mode` to `"replace_all"` (checked against
`["replace_all", "merge_all"]`); `tau` is to be learned iff it is `None`;
`min_tau_periods` falls back to `0` when `None` (its default is `2`). -/
def SmaModel.init (nid : String) (col : List String) (steps_ahead : Int)
    (tau : Option ℚ) (min_tau_periods : Option ℚ)
    (col_mode : Option String) (nan_mode : Option String) :
    Except String SmaModel :=
  if ¬ (col.length = 1) then .error "dassert_eq(len(col), 1)"
  else
    if ¬ (0 ≤ steps_ahead) then
      .error "Non-causal prediction attempted! Aborting..."
    else
      let nm := nan_mode.getD "raise"
      let cm := col_mode.getD "replace_all"
      if ¬ (cm = "replace_all" ∨ cm = "merge_all") then
        .error "col_mode not in [replace_all, merge_all]"
      else
        .ok { nid := nid, col := col.headD "", steps_ahead := steps_ahead,
              tau := tau, must_learn_tau := tau.isNone,
              min_tau_periods := min_tau_periods.getD 0,
              col_mode := cm, nan_mode := nm }

/-- `SmaModel._get_fwd_y_df`, on the model's single column:
`df[self._col].shift(-self._steps_ahead).rename(columns=mapper)` with
`mapper y = str(y) + "_%i" % self._steps_ahead`. -/
def SmaModel.get_fwd_y_col (m : SmaModel) (y : Col) : Col :=
  { name := y.name ++ "_" ++ toString m.steps_ahead
  , vals := pdShift (-m.steps_ahead) y.vals }

/-! ### `core/dataflow/models.py` — `ContinuousSarimaxModel.__init__` -/

/-- State of a `ContinuousSarimaxModel` node after a successful `__init__`. -/
structure ContinuousSarimaxModel where
  nid : String
  steps_ahead : Int
  add_constant : Bool
  col_mode : String
  nan_mode : String
deriving DecidableEq

/-- `ContinuousSarimaxModel.__init__`: asserts
`dbg.dassert_lte(1, steps_ahead, "Non-causal prediction attempted! Aborting...")`
(zero-step prediction is not supported for autoregressive models); `col_mode`
defaults to `"merge_all"` (checked against `["replace_all", "merge_all"]`) and
`nan_mode` to `"raise"`. -/
def ContinuousSarimaxModel.init (nid : String) (steps_ahead : Int)
    (add_constant : Bool) (col_mode : Option String)
    (nan_mode : Option String) : Except String ContinuousSarimaxModel :=
  if ¬ (1 ≤ steps_ahead) then
    .error "Non-causal prediction attempted! Aborting..."
  else
    let cm := col_mode.getD "merge_all"
    if ¬ (cm = "replace_all" ∨ cm = "merge_all") then
      .error "col_mode not in [replace_all, merge_all]"
    else
      .ok { nid := nid, steps_ahead := steps_ahead,
            add_constant := add_constant, col_mode := cm,
            nan_mode := nan_mode.getD "raise" }

end Kaizenflow

namespace Kaizenflow

/-- **C2**: constructing `ContinuousSkLearnModel` or `SmaModel` with
`steps_ahead < 0`, or `ContinuousSarimaxModel` with `steps_ahead < 1`, fails at
construction time with the "Non-causal prediction attempted" error; for every
valid `steps_ahead ≥ 0` and target column `y`, the forward-target column is
named exactly `y ++ "_" ++ steps_ahead` and equals the input column shifted
backward by `steps_ahead` rows. -/
theorem C2_causality_and_forward_target :
    (∀ s : Int, s < 0 →
      ContinuousSkLearnModel.init "n" s none none =
        .error "Non-causal prediction attempted! Aborting...") ∧
    (∀ s : Int, s < 0 →
      SmaModel.init "n" ["y"] s none (some 2) none none =
        .error "Non-causal prediction attempted! Aborting...") ∧
    (∀ s : Int, s < 1 →
      ContinuousSarimaxModel.init "n" s false none none =
        .error "Non-causal prediction attempted! Aborting...") ∧
    (∀ m : ContinuousSkLearnModel, 0 ≤ m.steps_ahead → ∀ y : Col,
      (m.get_fwd_y_col y).name = y.name ++ "_" ++ toString m.steps_ahead ∧
      (m.get_fwd_y_col y).vals = shiftBackSpec m.steps_ahead.toNat y.vals) ∧
    (∀ m : SmaModel, 0 ≤ m.steps_ahead → ∀ y : Col,
      (m.get_fwd_y_col y).name = y.name ++ "_" ++ toString m.steps_ahead ∧
      (m.get_fwd_y_col y).vals = shiftBackSpec m.steps_ahead.toNat y.vals) := by
  refine ⟨?_, ?_, ?_, ?_, ?_⟩
  · intro s hs
    simp [ContinuousSkLearnModel.init, not_le.mpr hs]
  · intro s hs
    simp [SmaModel.init, not_le.mpr hs]
  · intro s hs
    simp [ContinuousSarimaxModel.init, not_le.mpr hs]
  · intro m hm y
    refine ⟨rfl, ?_⟩
    have h : -m.steps_ahead = -(m.steps_ahead.toNat : Int) := by omega
    rw [ContinuousSkLearnModel.get_fwd_y_col, h,
      pdShift_neg_eq_shiftBackSpec]
  · intro m hm y
    refine ⟨rfl, ?_⟩
    have h : -m.steps_ahead = -(m.steps_ahead.toNat : Int) := by omega
    rw [SmaModel.get_fwd_y_col, h, pdShift_neg_eq_shiftBackSpec]

/-- Witness for C2 at concrete inputs: `steps_ahead = -1` is rejected
(`< 1` for SARIMAX shown at `0`), and at `steps_ahead = 2` the forward target
of `ret_0` is `ret_0_2`, the input shifted backward by two rows. -/
theorem C2_causality_and_forward_target_witness :
    ((-1 : Int) < 0 ∧
      ContinuousSkLearnModel.init "n" (-1) none none =
        .error "Non-causal prediction attempted! Aborting...") ∧
    ((-1 : Int) < 0 ∧
      SmaModel.init "n" ["y"] (-1) none (some 2) none none =
        .error "Non-causal prediction attempted! Aborting...") ∧
    ((0 : Int) < 1 ∧
      ContinuousSarimaxModel.init "n" 0 false none none =
        .error "Non-causal prediction attempted! Aborting...") ∧
    ((0 : Int) ≤ (2 : Int) ∧
      (ContinuousSkLearnModel.get_fwd_y_col ⟨"n", 2, "replace_all", "raise"⟩
          ⟨"ret_0", [some 1, some 2, some 3]⟩).name = "ret_0_2" ∧
      (ContinuousSkLearnModel.get_fwd_y_col ⟨"n", 2, "replace_all", "raise"⟩
          ⟨"ret_0", [some 1, some 2, some 3]⟩).vals =
        shiftBackSpec 2 [some 1, some 2, some 3]) :=
  ⟨⟨by decide, C2_causality_and_forward_target.1 (-1) (by decide)⟩,
   ⟨by decide, C2_causality_and_forward_target.2.1 (-1) (by decide)⟩,
   ⟨by decide, C2_causality_and_forward_target.2.2.1 0 (by decide)⟩,
   ⟨by decide,
    (C2_causality_and_forward_target.2.2.2.1
      ⟨"n", 2, "replace_all", "raise"⟩ (by decide)
      ⟨"ret_0", [some 1, some 2, some 3]⟩).1,
    (C2_causality_and_forward_target.2.2.2.1
      ⟨"n", 2, "replace_all", "raise"⟩ (by decide)
      ⟨"ret_0", [some 1, some 2, some 3]⟩).2⟩⟩

/-! ### `core/dataflow/runners.py` — `IncrementalDagRunner` -/

/-- A time-stamped input row of a source node's underlying data. -/
structure SrcRow where
  ts : Int
  val : ℚ
deriving DecidableEq

/-- An interval bound pair as accepted by a source node: `none` means
unbounded on that side. -/
abbrev IntervalB := Option Int × Option Int

/-- Modelled from the spec: the `DataSource` node (from `core.dataflow.nodes`,
which is not under `src/`) restricts the data visible to `predict` to the rows
inside the configured predict intervals; a bound of `none` is unbounded and
the bounds are inclusive, so the interval `(None, t)` exposes exactly the rows
with timestamp at most `t`. -/
def visibleRows (intervals : Option (List IntervalB)) (data : List SrcRow) :
    List SrcRow :=
  match intervals with
  | none => data
  | some ivs =>
      data.filter fun r => ivs.any fun iv =>
        (match iv.1 with | none => true | some a => decide (a ≤ r.ts)) &&
        (match iv.2 with | none => true | some b => decide (r.ts ≤ b))

/-- The DAG owned by an `IncrementalDagRunner`: one source node (its raw data
plus its current predict-interval state) feeding an arbitrary downstream
computation `model` that produces the result packaged into the
`ResultBundle`. -/
structure IncrementalDag where
  source_data : List SrcRow
  predict_intervals : Option (List IntervalB)
  model : List SrcRow → ℚ

/-- `DataSource.set_predict_intervals`, as invoked on every source node:
the interval state is overwritten, not merged. -/
def IncrementalDag.set_predict_intervals (dag : IncrementalDag)
    (ivs : List IntervalB) : IncrementalDag :=
  { dag with predict_intervals := some ivs }

/-- Running the DAG with method `"predict"`: the downstream computation sees
exactly the source rows visible under the predict intervals. -/
def IncrementalDag.run_predict (dag : IncrementalDag) : ℚ :=
  dag.model (visibleRows dag.predict_intervals dag.source_data)

/-- `IncrementalDagRunner.predict_at_datetime`: sets `interval = [(None, dt)]`
as the predict interval on every source node, then runs the DAG. -/
def IncrementalDagRunner.predict_at_datetime (dag : IncrementalDag)
    (dt : Int) : ℚ :=
  (dag.set_predict_intervals [(none, some dt)]).run_predict

/-- The interval `[(None, dt)]` exposes exactly the rows with timestamp
at most `dt`. -/
theorem visibleRows_upper (dt : Int) (data : List SrcRow) :
    visibleRows (some [(none, some dt)]) data =
      data.filter fun r => decide (r.ts ≤ dt) := by
  simp [visibleRows]

/-- **C1**: a prediction issued by `IncrementalDagRunner` as of timestamp `dt`
depends only on input rows with timestamp at most `dt`: two inputs that agree
on all rows with timestamp at most `dt` (and differ only on rows strictly
after `dt`) produce identical predictions, for every downstream model and
regardless of any previously set intervals. -/
theorem C1_incremental_non_anticipation :
    ∀ (model : List SrcRow → ℚ) (dt : Int) (data1 data2 : List SrcRow)
      (iv1 iv2 : Option (List IntervalB)),
      (data1.filter fun r => decide (r.ts ≤ dt)) =
        (data2.filter fun r => decide (r.ts ≤ dt)) →
      IncrementalDagRunner.predict_at_datetime ⟨data1, iv1, model⟩ dt =
        IncrementalDagRunner.predict_at_datetime ⟨data2, iv2, model⟩ dt := by
  intro model dt data1 data2 iv1 iv2 h
  unfold IncrementalDagRunner.predict_at_datetime IncrementalDag.run_predict
  simp only [IncrementalDag.set_predict_intervals]
  rw [visibleRows_upper, visibleRows_upper, h]

/-- Witness for C1: two data sets that agree up to time `1` but differ after
it yield the same prediction as of time `1` (here the model sums the visible
values). -/
theorem C1_incremental_non_anticipation_witness :
    ((([⟨0, 1⟩, ⟨2, 5⟩] : List SrcRow).filter fun r => decide (r.ts ≤ 1)) =
      (([⟨0, 1⟩, ⟨2, 7⟩, ⟨3, 9⟩] : List SrcRow).filter
        fun r => decide (r.ts ≤ 1))) ∧
    IncrementalDagRunner.predict_at_datetime
        ⟨[⟨0, 1⟩, ⟨2, 5⟩], none, fun rows => (rows.map SrcRow.val).sum⟩ 1 =
      IncrementalDagRunner.predict_at_datetime
        ⟨[⟨0, 1⟩, ⟨2, 7⟩, ⟨3, 9⟩], none,
          fun rows => (rows.map SrcRow.val).sum⟩ 1 :=
  ⟨by decide,
   C1_incremental_non_anticipation (fun rows => (rows.map SrcRow.val).sum) 1
     [⟨0, 1⟩, ⟨2, 5⟩] [⟨0, 1⟩, ⟨2, 7⟩, ⟨3, 9⟩] none none (by decide)⟩

/-! ### `core/dataflow/runners.py` — `RealTimeDagRunner` -/

/-- The learned-state slot of a built DAG (what `set_fit_state` would
populate). -/
structure RtDagState where
  fit_state : Option Nat
deriving DecidableEq

/-- `core.dataflow.visitors.set_fit_state`: restores an externalized fit-state
into the DAG.  `IncrementalDagRunner.__init__` calls it (runners.py line 400);
this is what "restoring the fit-state at construction" means. -/
def set_fit_state (dag : RtDagState) (fit_state : Nat) : RtDagState :=
  { dag with fit_state := some fit_state }

/-- State of a `RealTimeDagRunner` after construction. -/
structure RealTimeDagRunner where
  dag : RtDagState
  dst_dir : String
  events : List Int
deriving DecidableEq

/-- `RealTimeDagRunner.__init__` (runners.py lines 461-476): the `fit_state`
argument is bound to `_` and discarded (`_ = fit_state`, with a TODO to use it
for stateful DAGs); the runner stores the loop kwargs and `dst_dir` and starts
with an empty event list.  No `set_fit_state` call occurs. -/
def RealTimeDagRunner.init (dag : RtDagState) (_fit_state : Nat)
    (dst_dir : String) : RealTimeDagRunner :=
  { dag := dag, dst_dir := dst_dir, events := [] }

/-- `RealTimeDagRunner._run_dag` with method `"predict"`: runs the graph in
whatever state it currently holds. -/
def RealTimeDagRunner.run_predict (r : RealTimeDagRunner)
    (model : RtDagState → ℚ) : ℚ :=
  model r.dag

/-- **C3 counterexample**: constructing a `RealTimeDagRunner` from an unfitted
DAG and the externalized fit-state `7` does not leave the DAG in the state
that restoring that fit-state produces — the fit-state is discarded, not
restored. -/
theorem C3_claim_counterexample :
    (RealTimeDagRunner.init ⟨none⟩ 7 "dst").dag ≠ set_fit_state ⟨none⟩ 7 := by
  decide

/-- **C3 (amended)**: `RealTimeDagRunner.__init__` accepts the externalized
fit-state but discards it: the DAG is left exactly as built (independently of
which fit-state is passed), the event list starts empty, and every subsequent
predict call runs the graph in that as-built state — no restoration and no
retraining occur. -/
theorem C3_fit_state_discarded :
    ∀ (dag : RtDagState) (fs fs2 : Nat) (dst : String)
      (model : RtDagState → ℚ),
      (RealTimeDagRunner.init dag fs dst).dag = dag ∧
      RealTimeDagRunner.init dag fs dst = RealTimeDagRunner.init dag fs2 dst ∧
      (RealTimeDagRunner.init dag fs dst).events = [] ∧
      (RealTimeDagRunner.init dag fs dst).run_predict model = model dag := by
  intro dag fs fs2 dst model
  exact ⟨rfl, rfl, rfl, rfl⟩

/-! ### `core/dataflow/models.py` — `SmaModel` tau learning -/

/-- Python `int(q)`: truncation toward zero. -/
def pyInt (q : ℚ) : Int := if q < 0 then -⌊-q⌋ else ⌊q⌋

/-- Numpy `rint`: round to the nearest integer, halves to the even integer. -/
def npRint (q : ℚ) : Int :=
  let f := ⌊q⌋
  let r := q - (f : ℚ)
  if r < 1 / 2 then f
  else if 1 / 2 < r then f + 1
  else if f % 2 = 0 then f else f + 1

/-- The bounds `SmaModel._learn_tau` passes to
`sp.optimize.minimize_scalar(score, method="bounded", bounds=[tau_lb, tau_ub])`:
`tau_lb = 1`, `tau_ub = 1000`, and when `min_tau_periods > 0` the upper bound
is replaced by `int(len(x) / (2 * min_tau_periods))`. -/
def SmaModel.learn_tau_bounds (m : SmaModel) (lenx : Nat) : ℚ × ℚ :=
  let tau_lb : ℚ := 1
  let tau_ub : ℚ := 1000
  let tau_ub : ℚ :=
    if 0 < m.min_tau_periods then
      ((pyInt ((lenx : ℚ) / (2 * m.min_tau_periods)) : ℚ))
    else tau_ub
  (tau_lb, tau_ub)

/-- The contract of the external bounded scalar optimizer: it returns a point
inside the bounds it is given. -/
def BoundedOpt (opt : ℚ → ℚ → ℚ) : Prop :=
  ∀ lb ub : ℚ, lb ≤ ub → lb ≤ opt lb ub ∧ opt lb ub ≤ ub

/-- `SmaModel._learn_tau` with the external optimizer abstracted as `opt`:
the learned tau is whatever the bounded optimizer returns on the computed
bounds (`opt_results.x`). -/
def SmaModel.learn_tau (opt : ℚ → ℚ → ℚ) (m : SmaModel) (lenx : Nat) : ℚ :=
  let b := m.learn_tau_bounds lenx
  opt b.1 b.2

/-- `SmaModel._get_min_periods`: `int(np.rint(min_tau_periods * tau))`. -/
def SmaModel.get_min_periods (m : SmaModel) (tau : ℚ) : Int :=
  npRint (m.min_tau_periods * tau)

/-- The slice of `SmaModel.fit` that learns `tau` (when it was constructed
with `tau=None`) and computes the `min_periods` burn-in reported in the fit
diagnostics. -/
def SmaModel.fit_tau_and_min_periods (opt : ℚ → ℚ → ℚ) (m : SmaModel)
    (x_fit : List ℚ) : ℚ × Int :=
  let tau := if m.must_learn_tau then m.learn_tau opt x_fit.length
             else m.tau.getD 0
  (tau, m.get_min_periods tau)

/-- An `SmaModel` built with `tau=None` and the default
`min_tau_periods = 2`. -/
def c4Model : SmaModel :=
  ⟨"sma", "ret_0", 2, none, true, 2, "replace_all", "raise"⟩

/-- An admissible bounded optimizer that returns the upper bound. -/
def c4OptUb : ℚ → ℚ → ℚ := fun _ ub => ub

/-- An admissible bounded optimizer that returns the lower bound. -/
def c4OptLb : ℚ → ℚ → ℚ := fun lb _ => lb

/-- A fit series of 10000 rows. -/
def c4LongX : List ℚ := List.replicate 10000 1

/-- **C4 counterexample**: on a 10000-row fit series with the default
`min_tau_periods = 2`, the search bracket becomes `[1, 2500]` — the upper
bound `1000` is replaced, not tightened — so an admissible bounded optimizer
can return `tau = 2500`, outside `[1, min(1000, len(x)/(2*min_tau_periods))]
= [1, 1000]`. -/
theorem C4_claim_counterexample :
    BoundedOpt c4OptUb ∧
    c4Model.must_learn_tau = true ∧
    0 < c4Model.min_tau_periods ∧
    (SmaModel.fit_tau_and_min_periods c4OptUb c4Model c4LongX).1 = 2500 ∧
    ¬ ((SmaModel.fit_tau_and_min_periods c4OptUb c4Model c4LongX).1 ≤
        min 1000 ((c4LongX.length : ℚ) / (2 * c4Model.min_tau_periods))) := by
  have hlen : c4LongX.length = 10000 := by rw [c4LongX, List.length_replicate]
  have h : (SmaModel.fit_tau_and_min_periods c4OptUb c4Model c4LongX).1 =
      2500 := by
    simp [SmaModel.fit_tau_and_min_periods, c4Model, SmaModel.learn_tau,
      SmaModel.learn_tau_bounds, c4OptUb, hlen, pyInt]
    norm_num
  refine ⟨fun lb ub hb => ⟨hb, le_refl _⟩, rfl, by norm_num [c4Model], h, ?_⟩
  rw [h, hlen]
  norm_num [c4Model]

/-- **C4 (amended)**: when `SmaModel` is constructed with `tau=None`, `fit`
learns tau by bounded search whose bracket is `[1, tau_ub]` with
`tau_ub = int(len(x)/(2*min_tau_periods))` whenever `min_tau_periods > 0`
(this REPLACES the initial bound `1000` and may exceed it) and `tau_ub = 1000`
otherwise; the learned tau lies in `[1, tau_ub]`, and the burn-in reported as
`min_periods` equals `rint(min_tau_periods * tau)` (nearest integer, halves to
even) exactly. -/
theorem C4_tau_bracket_and_min_periods (opt : ℚ → ℚ → ℚ)
    (hopt : BoundedOpt opt) (m : SmaModel) (hm : m.must_learn_tau = true)
    (x : List ℚ) (hub : 1 ≤ (m.learn_tau_bounds x.length).2) :
    1 ≤ (SmaModel.fit_tau_and_min_periods opt m x).1 ∧
    (SmaModel.fit_tau_and_min_periods opt m x).1 ≤
      (if 0 < m.min_tau_periods then
        ((pyInt ((x.length : ℚ) / (2 * m.min_tau_periods)) : ℚ))
      else 1000) ∧
    (SmaModel.fit_tau_and_min_periods opt m x).2 =
      npRint (m.min_tau_periods * (SmaModel.fit_tau_and_min_periods opt m x).1) := by
  have hb : (m.learn_tau_bounds x.length).1 = 1 := rfl
  have h := hopt (m.learn_tau_bounds x.length).1 (m.learn_tau_bounds x.length).2
    (by rw [hb]; exact hub)
  have htau : (SmaModel.fit_tau_and_min_periods opt m x).1 =
      opt (m.learn_tau_bounds x.length).1 (m.learn_tau_bounds x.length).2 := by
    simp [SmaModel.fit_tau_and_min_periods, hm, SmaModel.learn_tau]
  refine ⟨?_, ?_, rfl⟩
  · rw [htau]; rw [hb] at h; exact h.1
  · rw [htau]
    have hub2 : (m.learn_tau_bounds x.length).2 =
        (if 0 < m.min_tau_periods then
          ((pyInt ((x.length : ℚ) / (2 * m.min_tau_periods)) : ℚ))
        else 1000) := rfl
    rw [← hub2]; exact h.2

/-- Witness for the amended C4 theorem: on a 4-row series with
`min_tau_periods = 2` the bracket is `[1, 1]`, an admissible optimizer returns
`tau = 1`, and the reported burn-in is `rint(2 * 1) = 2`. -/
theorem C4_tau_bracket_and_min_periods_witness :
    BoundedOpt c4OptLb ∧
    c4Model.must_learn_tau = true ∧
    1 ≤ (c4Model.learn_tau_bounds ([1, 2, 3, 4] : List ℚ).length).2 ∧
    (1 ≤ (SmaModel.fit_tau_and_min_periods c4OptLb c4Model [1, 2, 3, 4]).1 ∧
     (SmaModel.fit_tau_and_min_periods c4OptLb c4Model [1, 2, 3, 4]).1 ≤
       (if 0 < c4Model.min_tau_periods then
         ((pyInt ((([1, 2, 3, 4] : List ℚ).length : ℚ) /
             (2 * c4Model.min_tau_periods)) : ℚ))
       else 1000) ∧
     (SmaModel.fit_tau_and_min_periods c4OptLb c4Model [1, 2, 3, 4]).2 =
       npRint (c4Model.min_tau_periods *
         (SmaModel.fit_tau_and_min_periods c4OptLb c4Model [1, 2, 3, 4]).1)) :=
  ⟨fun lb _ h => ⟨le_refl _, h⟩, rfl,
   by norm_num [SmaModel.learn_tau_bounds, c4Model, pyInt],
   C4_tau_bracket_and_min_periods c4OptLb (fun lb _ h => ⟨le_refl _, h⟩)
     c4Model rfl [1, 2, 3, 4]
     (by norm_num [SmaModel.learn_tau_bounds, c4Model, pyInt])⟩

/-! ### `core/dataflow/models.py` — `VolatilityModulator` -/

/-- Elementwise division with pandas `NaN` propagation. -/
def optDiv (a b : Val) : Val :=
  match a, b with
  | some x, some y => some (x / y)
  | _, _ => none

/-- Elementwise multiplication with pandas `NaN` propagation. -/
def optMul (a b : Val) : Val :=
  match a, b with
  | some x, some y => some (x * y)
  | _, _ => none

/-- State of a `VolatilityModulator` node after a successful `__init__`. -/
structure VolatilityModulator where
  nid : String
  signal_steps_ahead : Nat
  volatility_steps_ahead : Nat
  mode : String
  nan_mode : String
deriving DecidableEq

/-- `VolatilityModulator.__init__`: asserts
`dbg.dassert_lte(0, signal_steps_ahead)`,
`dbg.dassert_lte(0, volatility_steps_ahead)` and
`dbg.dassert_in(mode, ["modulate", "demodulate"])`; `nan_mode` defaults to
`"leave_unchanged"`. -/
def VolatilityModulator.init (nid : String)
    (signal_steps_ahead volatility_steps_ahead : Int) (mode : String)
    (nan_mode : Option String) : Except String VolatilityModulator :=
  if ¬ (0 ≤ signal_steps_ahead) then
    .error "dassert_lte(0, signal_steps_ahead)"
  else if ¬ (0 ≤ volatility_steps_ahead) then
    .error "dassert_lte(0, volatility_steps_ahead)"
  else if ¬ (mode = "modulate" ∨ mode = "demodulate") then
    .error "dassert_in(mode, [modulate, demodulate])"
  else
    .ok { nid := nid, signal_steps_ahead := signal_steps_ahead.toNat,
          volatility_steps_ahead := volatility_steps_ahead.toNat,
          mode := mode, nan_mode := nan_mode.getD "leave_unchanged" }

/-- The final step of `VolatilityModulator._process_signal`: divide
(`mode="demodulate"`) or multiply (`mode="modulate"`) the signal by the
aligned volatility; any other mode raises `ValueError`. -/
def VolatilityModulator.adjust (m : VolatilityModulator)
    (fwd_signal volatility_aligned : List Val) : Except String (List Val) :=
  if m.mode = "demodulate" then
    .ok (List.zipWith optDiv fwd_signal volatility_aligned)
  else if m.mode = "modulate" then
    .ok (List.zipWith optMul fwd_signal volatility_aligned)
  else .error ("Invalid mode=" ++ m.mode)

/-- `VolatilityModulator._process_signal` on one signal column: shift the
volatility by `volatility_steps_ahead - signal_steps_ahead` rows (after the
`nan_mode` treatment of the volatility series, default `"leave_unchanged"`),
then divide or multiply the signal by the aligned volatility according to
`mode`. -/
def VolatilityModulator.process_signal (m : VolatilityModulator)
    (fwd_signal fwd_volatility : List Val) : Except String (List Val) :=
  let volatility_shift : Int :=
    (m.volatility_steps_ahead : Int) - (m.signal_steps_ahead : Int)
  if m.nan_mode = "drop" then
    m.adjust fwd_signal
      (pdShift volatility_shift (fwd_volatility.filter fun v => v.isSome))
  else if m.nan_mode = "leave_unchanged" then
    m.adjust fwd_signal (pdShift volatility_shift fwd_volatility)
  else .error ("Unrecognized nan_mode " ++ m.nan_mode)

/-- A demodulator for a contemporaneous signal and a one-step-ahead
volatility. -/
def c5Demod : VolatilityModulator :=
  ⟨"dem", 0, 1, "demodulate", "leave_unchanged"⟩

/-- The modulator with the identical alignment parameters. -/
def c5Mod : VolatilityModulator :=
  ⟨"mod", 0, 1, "modulate", "leave_unchanged"⟩

/-- **C5 counterexample**: with `signal_steps_ahead = 0`,
`volatility_steps_ahead = 1` and the everywhere-nonzero volatility series
`[1, 1]`, demodulating and then modulating the signal `[1, 1]` yields
`[NaN, 1]`, not the original signal: the one-row volatility shift leaves the
first row's aligned volatility undefined, so that row is not recovered. -/
theorem C5_claim_counterexample :
    VolatilityModulator.init "dem" 0 1 "demodulate" none = .ok c5Demod ∧
    VolatilityModulator.init "mod" 0 1 "modulate" none = .ok c5Mod ∧
    (∀ w ∈ ([some 1, some 1] : List Val), w ≠ none ∧ w ≠ some 0) ∧
    c5Demod.process_signal [some 1, some 1] [some 1, some 1] =
      .ok [none, some 1] ∧
    c5Mod.process_signal [none, some 1] [some 1, some 1] =
      .ok [none, some 1] ∧
    ([none, some 1] : List Val) ≠ [some 1, some 1] := by
  refine ⟨?_, ?_, by decide, ?_, ?_, by decide⟩
  · norm_num [VolatilityModulator.init, c5Demod]
  · norm_num [VolatilityModulator.init, c5Mod]
  · simp [c5Demod, VolatilityModulator.process_signal,
      VolatilityModulator.adjust, pdShift, optDiv, List.range_succ]
  · simp [c5Mod, VolatilityModulator.process_signal,
      VolatilityModulator.adjust, pdShift, optMul, List.range_succ]

/-- Index-wise content of `List.zipWith`. -/
theorem zipWith_getD {α β γ : Type} (f : α → β → γ) (da : α) (db : β) (dc : γ)
    (as : List α) (bs : List β) (i : Nat)
    (h : i < min as.length bs.length) :
    (List.zipWith f as bs).getD i dc = f (as.getD i da) (bs.getD i db) := by
  induction as generalizing bs i with
  | nil => simp at h
  | cons a as ih =>
    cases bs with
    | nil => simp at h
    | cons b bs =>
      cases i with
      | zero => rfl
      | succ i =>
        simp only [List.zipWith_cons_cons, List.getD_cons_succ]
        exact ih bs i (by simp at h ⊢; omega)

/-- **C5 (amended)**: `VolatilityModulator` shifts the volatility column by
`volatility_steps_ahead - signal_steps_ahead` rows and divides
(`demodulate`) or multiplies (`modulate`) the signal by the aligned
volatility; demodulating and then modulating with identical alignment
parameters recovers the original signal exactly at every row where the
aligned (shifted) volatility is a non-missing, nonzero value — the first or
last `|volatility_steps_ahead - signal_steps_ahead|` rows, where the shift
leaves the volatility undefined, come back as `NaN` instead. -/
theorem C5_round_trip_recovers_signal (s v : Nat) (sig vol : List Val)
    (hlen : sig.length = vol.length) (i : Nat) (hi : i < sig.length) (q : ℚ)
    (hq : (pdShift ((v : Int) - (s : Int)) vol).getD i none = some q)
    (hq0 : q ≠ 0) :
    ∀ dOut mOut : List Val,
      VolatilityModulator.process_signal
        ⟨"dem", s, v, "demodulate", "leave_unchanged"⟩ sig vol = .ok dOut →
      VolatilityModulator.process_signal
        ⟨"mod", s, v, "modulate", "leave_unchanged"⟩ dOut vol = .ok mOut →
      mOut.getD i none = sig.getD i none := by
  intro dOut mOut hd hm
  simp [VolatilityModulator.process_signal, VolatilityModulator.adjust]
    at hd hm
  subst hd
  subst hm
  have hal : (pdShift ((v : Int) - (s : Int)) vol).length = vol.length :=
    pdShift_length _ _
  have h1 : i < min sig.length (pdShift ((v : Int) - (s : Int)) vol).length := by
    rw [hal, ← hlen]; omega
  have h2 : i < min (List.zipWith optDiv sig
      (pdShift ((v : Int) - (s : Int)) vol)).length
      (pdShift ((v : Int) - (s : Int)) vol).length := by
    rw [List.length_zipWith]
    omega
  rw [zipWith_getD optMul none none none _ _ _ h2,
    zipWith_getD optDiv none none none _ _ _ h1, hq]
  cases hsig : sig.getD i none with
  | none => rfl
  | some x => simp [optDiv, optMul, div_mul_cancel₀ x hq0]

/-- Witness for the amended C5 theorem: at row `1`, where the shifted
volatility is the defined nonzero value `1`, demodulate-then-modulate
recovers the signal value `3`. -/
theorem C5_round_trip_recovers_signal_witness :
    (([some 2, some 3] : List Val).length =
      ([some 1, some 4] : List Val).length) ∧
    (1 < ([some 2, some 3] : List Val).length) ∧
    ((pdShift ((1 : Nat) - ((0 : Nat) : Int)) [some 1, some 4]).getD 1 none =
      some 1) ∧
    ((1 : ℚ) ≠ 0) ∧
    VolatilityModulator.process_signal
      ⟨"dem", 0, 1, "demodulate", "leave_unchanged"⟩
      [some 2, some 3] [some 1, some 4] = .ok [none, some 3] ∧
    VolatilityModulator.process_signal
      ⟨"mod", 0, 1, "modulate", "leave_unchanged"⟩
      [none, some 3] [some 1, some 4] = .ok [none, some 3] ∧
    ([none, some 3] : List Val).getD 1 none =
      ([some 2, some 3] : List Val).getD 1 none := by
  refine ⟨by decide, by decide, by decide, by decide, ?_, ?_, ?_⟩
  · simp [VolatilityModulator.process_signal, VolatilityModulator.adjust,
      pdShift, optDiv, List.range_succ]
  · simp [VolatilityModulator.process_signal, VolatilityModulator.adjust,
      pdShift, optMul, List.range_succ]
  · refine C5_round_trip_recovers_signal 0 1 [some 2, some 3] [some 1, some 4]
      (by decide) 1 (by decide) 1 (by decide) (by decide)
      [none, some 3] [none, some 3] ?_ ?_
    · simp [VolatilityModulator.process_signal, VolatilityModulator.adjust,
        pdShift, optDiv, List.range_succ]
    · simp [VolatilityModulator.process_signal, VolatilityModulator.adjust,
        pdShift, optMul, List.range_succ]

/-! ### `pd.date_range` for a fixed positive step -/

/-- Pandas `date_range(start, end, freq)` for a fixed positive step `freq`:
the points `start, start + freq, ...` up to and including `end`; empty when
`end < start`.  Times are integers in the step's base unit. -/
def date_range (start endT : Int) (freq : Nat) : List Int :=
  if endT < start then []
  else (List.range ((endT - start).toNat / freq + 1)).map
    fun (i : Nat) => start + (freq : Int) * i

theorem date_range_pairwise (start endT : Int) (freq : Nat) (hf : 0 < freq) :
    (date_range start endT freq).Pairwise (· < ·) := by
  unfold date_range
  split
  · exact List.Pairwise.nil
  · refine List.Pairwise.map _ ?_ (List.pairwise_lt_range _)
    intro a b hab
    have : (freq : Int) * a < (freq : Int) * b := by
      have hfz : (0 : Int) < (freq : Int) := by exact_mod_cast hf
      exact mul_lt_mul_of_pos_left (by exact_mod_cast hab) hfz
    omega

theorem date_range_ne_nil (start endT : Int) (freq : Nat)
    (h : start ≤ endT) : date_range start endT freq ≠ [] := by
  unfold date_range
  rw [if_neg (by omega)]
  simp

/-! ### `core/dataflow/runners.py` — `RollingFitPredictDagRunner` -/

/-- `RollingFitPredictDagRunner._generate_retraining_datetimes`: build the
grid `pd.date_range(start, end, retraining_freq)`, assert it is non-empty,
assert `retraining_lookback < grid.size`, shift the grid forward by
`retraining_lookback` periods, drop every timestamp at or past `end`, assert
the remainder is non-empty, and return it. -/
def RollingFitPredictDagRunner.generate_retraining_datetimes
    (start endT : Int) (retraining_freq : Nat) (retraining_lookback : Nat) :
    Except String (List Int) :=
  let grid := date_range start endT retraining_freq
  if grid.isEmpty then
    .error "Not enough data for requested training schedule!"
  else if ¬ (retraining_lookback < grid.length) then
    .error "Input data does not have enough periods"
  else
    let idx := grid.map
      fun t => t + (retraining_lookback : Int) * (retraining_freq : Int)
    let idx := idx.filter fun t => decide (t < endT)
    if idx.isEmpty then .error "dassert(not idx.empty)"
    else .ok idx

/-- **C8**: the retraining schedule fails when the frequency grid over
`[start, end]` is empty, or when the grid does not have strictly more than
`retraining_lookback` points, or (after shifting by the lookback and
discarding every timestamp at or past `end`) when nothing remains; a
successfully returned schedule is non-empty, strictly increasing, and every
scheduled timestamp is strictly before `end`. -/
theorem C8_rolling_retraining_schedule (start endT : Int)
    (freq lookback : Nat) (hf : 0 < freq) :
    ((date_range start endT freq).isEmpty = true →
      RollingFitPredictDagRunner.generate_retraining_datetimes
          start endT freq lookback =
        .error "Not enough data for requested training schedule!") ∧
    ((date_range start endT freq).isEmpty = false →
      (date_range start endT freq).length ≤ lookback →
      RollingFitPredictDagRunner.generate_retraining_datetimes
          start endT freq lookback =
        .error "Input data does not have enough periods") ∧
    (∀ l : List Int,
      RollingFitPredictDagRunner.generate_retraining_datetimes
          start endT freq lookback = .ok l →
      l ≠ [] ∧ List.Chain' (· < ·) l ∧ ∀ t ∈ l, t < endT) := by
  refine ⟨?_, ?_, ?_⟩
  · intro h
    unfold RollingFitPredictDagRunner.generate_retraining_datetimes
    rw [if_pos h]
  · intro h1 h2
    unfold RollingFitPredictDagRunner.generate_retraining_datetimes
    rw [if_neg (by simp [h1]), if_pos (by omega)]
  · intro l hl
    unfold RollingFitPredictDagRunner.generate_retraining_datetimes at hl
    dsimp only at hl
    split at hl
    · exact absurd hl (by simp)
    · split at hl
      · exact absurd hl (by simp)
      · split at hl
        · exact absurd hl (by simp)
        · rename_i hne
          have hl2 := Except.ok.inj hl
          subst hl2
          refine ⟨by simpa [List.isEmpty_iff] using hne, ?_, ?_⟩
          · refine List.Pairwise.chain' ?_
            refine List.Pairwise.filter _ ?_
            refine List.Pairwise.map _ ?_
              (date_range_pairwise start endT freq hf)
            intro a b hab
            omega
          · intro t ht
            have := (List.mem_filter.mp ht).2
            exact of_decide_eq_true this

/-- Witness for C8 at `start=0`, `end=5`, `freq=1`, `lookback=2`: the grid is
`[0..5]`, the shifted-and-trimmed schedule is `[2, 3, 4]` — non-empty,
strictly increasing, all strictly before `5`. -/
theorem C8_rolling_retraining_schedule_witness :
    (0 : Nat) < 1 ∧
    RollingFitPredictDagRunner.generate_retraining_datetimes 0 5 1 2 =
      .ok [2, 3, 4] ∧
    (([2, 3, 4] : List Int) ≠ [] ∧
      List.Chain' (· < ·) ([2, 3, 4] : List Int) ∧
      ∀ t ∈ ([2, 3, 4] : List Int), t < 5) :=
  ⟨by decide,
   by simp [RollingFitPredictDagRunner.generate_retraining_datetimes,
     date_range, List.range_succ],
   (C8_rolling_retraining_schedule 0 5 1 2 (by decide)).2.2 [2, 3, 4]
     (by simp [RollingFitPredictDagRunner.generate_retraining_datetimes,
       date_range, List.range_succ])⟩

/-! ### `im_v2/.../generate_pq_example_data.py` -/

/-- One output row of `_get_generic_daily_df`. -/
structure GenRow where
  ts : Int
  idx : Nat
  asset : String
  val1 : Nat
  val2 : Nat
deriving DecidableEq

/-- One asset's block in `_get_generic_daily_df`: one row per grid timestamp
carrying the asset's enumeration index, the asset name and the row position
as `val1` and `val2`, with the last row ("last midnight") dropped. -/
def assetBlock (df_idx : List Int) (idx : Nat) (asset : String) :
    List GenRow :=
  ((df_idx.enum).map fun p => (⟨p.2, idx, asset, p.1, p.1⟩ : GenRow)).dropLast

/-- `_get_generic_daily_df(start_date, end_date, assets, freq)`: the
concatenation over `enumerate(assets)` of the per-asset blocks over the
timestamp grid. -/
def get_generic_daily_df (start endT : Int) (assets : List String)
    (freq : Nat) : List GenRow :=
  (assets.enum).flatMap fun p => assetBlock (date_range start endT freq) p.1 p.2

/-- `_main` of the generator CLI: asserts `start_date < end_date` (the source
compares ISO `YYYY-MM-DD` strings, whose lexicographic order agrees with the
day order used here), asserts that the daily span `[start_date, end_date]`
has strictly more than two points, then builds the generic dataframe on the
`freq` grid (times in hours, one day being 24 units; `freq` defaults to one
hour). -/
def generate_pq_main (start_date end_date : Int) (assets : List String)
    (freq : Nat) : Except String (List GenRow) :=
  if ¬ (start_date < end_date) then
    .error "dassert_lt(start_date, end_date)"
  else if ¬ (2 < (date_range start_date end_date 1).length) then
    .error "dassert_lt(2, len(timespan))"
  else
    .ok (get_generic_daily_df (24 * start_date) (24 * end_date) assets freq)

/-- Elements of `dropLast` of a strictly increasing list are strictly below
its last element. -/
theorem mem_dropLast_lt_getLast (l : List Int)
    (hp : l.Pairwise (· < ·)) (t : Int) (ht : t ∈ l.dropLast) (L : Int)
    (hL : l.getLast? = some L) : t < L := by
  have h0 : l ≠ [] := by
    intro h
    rw [h] at hL
    simp at hL
  rw [List.getLast?_eq_getLast_of_ne_nil h0] at hL
  have hL2 : L = l.getLast h0 := by
    exact (Option.some.injEq _ _).mp hL.symm
  subst hL2
  have hsplit := List.dropLast_append_getLast h0
  rw [← hsplit] at hp
  have := (List.pairwise_append.mp hp).2.2
  exact this t ht _ (by simp)

/-- **C9**: the generator CLI fails when `start_date ≥ end_date` or when the
daily span covers two or fewer timestamps; on success the output is the
concatenation of per-asset blocks in which `val1` and `val2` equal the row's
position `0, 1, 2, ...` within the asset's series (strictly increasing from
0), the timestamps are the grid minus its final boundary point, and the final
(midnight-boundary) grid row is absent from every asset's block. -/
theorem C9_generator_boundary_and_counters (sd ed : Int)
    (assets : List String) (freq : Nat) (hf : 0 < freq) :
    (ed ≤ sd → generate_pq_main sd ed assets freq =
      .error "dassert_lt(start_date, end_date)") ∧
    (sd < ed → (date_range sd ed 1).length ≤ 2 →
      generate_pq_main sd ed assets freq =
        .error "dassert_lt(2, len(timespan))") ∧
    (∀ rows, generate_pq_main sd ed assets freq = .ok rows →
      rows = (assets.enum).flatMap fun p =>
        assetBlock (date_range (24 * sd) (24 * ed) freq) p.1 p.2) ∧
    (∀ (i : Nat) (a : String),
      (assetBlock (date_range (24 * sd) (24 * ed) freq) i a).map
          GenRow.val1 =
        List.range ((date_range (24 * sd) (24 * ed) freq).length - 1) ∧
      (assetBlock (date_range (24 * sd) (24 * ed) freq) i a).map
          GenRow.val2 =
        List.range ((date_range (24 * sd) (24 * ed) freq).length - 1) ∧
      (assetBlock (date_range (24 * sd) (24 * ed) freq) i a).map GenRow.ts =
        (date_range (24 * sd) (24 * ed) freq).dropLast ∧
      (∀ r ∈ assetBlock (date_range (24 * sd) (24 * ed) freq) i a, ∀ L : Int,
        (date_range (24 * sd) (24 * ed) freq).getLast? = some L →
        r.ts ≠ L)) := by
  refine ⟨?_, ?_, ?_, ?_⟩
  · intro h
    unfold generate_pq_main
    rw [if_pos (by omega)]
  · intro h1 h2
    unfold generate_pq_main
    rw [if_neg (by omega), if_pos (by omega)]
  · intro rows hrows
    unfold generate_pq_main at hrows
    split at hrows
    · exact absurd hrows (by simp)
    · split at hrows
      · exact absurd hrows (by simp)
      · exact (Except.ok.inj hrows).symm
  · intro i a
    set l := date_range (24 * sd) (24 * ed) freq with hldef
    have hv1 : (assetBlock l i a).map GenRow.val1 =
        List.range (l.length - 1) := by
      unfold assetBlock
      rw [← List.map_dropLast, List.map_map]
      have : (GenRow.val1 ∘ fun p : Nat × Int =>
          (⟨p.2, i, a, p.1, p.1⟩ : GenRow)) = Prod.fst := rfl
      rw [this, List.map_dropLast, List.enum_map_fst, List.dropLast_eq_take,
        List.take_range, List.length_range]
      congr 1
      omega
    have hv2 : (assetBlock l i a).map GenRow.val2 =
        List.range (l.length - 1) := by
      unfold assetBlock
      rw [← List.map_dropLast, List.map_map]
      have : (GenRow.val2 ∘ fun p : Nat × Int =>
          (⟨p.2, i, a, p.1, p.1⟩ : GenRow)) = Prod.fst := rfl
      rw [this, List.map_dropLast, List.enum_map_fst, List.dropLast_eq_take,
        List.take_range, List.length_range]
      congr 1
      omega
    have hts : (assetBlock l i a).map GenRow.ts = l.dropLast := by
      unfold assetBlock
      rw [← List.map_dropLast, List.map_map]
      have : (GenRow.ts ∘ fun p : Nat × Int =>
          (⟨p.2, i, a, p.1, p.1⟩ : GenRow)) = Prod.snd := rfl
      rw [this, List.map_dropLast, List.enum_map_snd]
    refine ⟨hv1, hv2, hts, ?_⟩
    intro r hr L hL
    have hmem : r.ts ∈ l.dropLast := by
      rw [← hts]
      exact List.mem_map_of_mem GenRow.ts hr
    have := mem_dropLast_lt_getLast l
      (date_range_pairwise (24 * sd) (24 * ed) freq hf) r.ts hmem L hL
    omega

/-- Witness for C9: `start_date = 0`, `end_date = 3` (daily span of 4 > 2
points), two assets, daily frequency (24 hours): each asset's block counts
`0, 1, 2` and omits the final grid timestamp `72`. -/
theorem C9_generator_boundary_and_counters_witness :
    (0 : Nat) < 24 ∧
    generate_pq_main 0 3 ["A", "B"] 24 =
      .ok (((["A", "B"] : List String).enum).flatMap fun p =>
        assetBlock (date_range 0 72 24) p.1 p.2) ∧
    ((assetBlock (date_range 0 72 24) 0 "A").map GenRow.val1 =
      List.range 3) ∧
    ((assetBlock (date_range 0 72 24) 0 "A").map GenRow.ts = [0, 24, 48]) ∧
    (∀ r ∈ assetBlock (date_range 0 72 24) 0 "A", ∀ L : Int,
      (date_range 0 72 24).getLast? = some L → r.ts ≠ L) := by
  have happ : generate_pq_main 0 3 ["A", "B"] 24 =
      .ok (((["A", "B"] : List String).enum).flatMap fun p =>
        assetBlock (date_range 0 72 24) p.1 p.2) := by
    have h3 : (2 : Nat) < (date_range 0 3 1).length := by
      simp [date_range, List.range_succ]
    unfold generate_pq_main
    rw [if_neg (by omega), if_neg (by omega)]
    norm_num [get_generic_daily_df]
  refine ⟨by decide, happ, ?_, ?_, ?_⟩
  · have h := ((C9_generator_boundary_and_counters 0 3 ["A", "B"] 24
      (by decide)).2.2.2 0 "A").1
    have hlen : (date_range 0 72 24).length = 4 := by
      simp [date_range, List.range_succ]
    norm_num at h
    rw [h, hlen]
  · have h := ((C9_generator_boundary_and_counters 0 3 ["A", "B"] 24
      (by decide)).2.2.2 0 "A").2.2.1
    norm_num at h
    rw [h]
    simp [date_range, List.range_succ]
  · intro r hr L hL
    have h := ((C9_generator_boundary_and_counters 0 3 ["A", "B"] 24
      (by decide)).2.2.2 0 "A").2.2.2
    norm_num at h
    exact h r hr L hL

/-! ### `helpers/joblib_helpers.py` — parallel task execution harness -/

/-- A value stored in a task's keyword-argument dict. -/
inductive KwVal where
  | bool (b : Bool)
  | nat (n : Nat)
  | str (s : String)
deriving DecidableEq

/-- A Python keyword-argument dict: insertion-ordered key/value pairs. -/
abbrev Kwargs := List (String × KwVal)

/-- The positional arguments of one task. -/
abbrev Args := List Int

/-- Python `dict` update for one key: an existing binding is overwritten in
place, a new key is appended at the end. -/
def updateKey (kw : Kwargs) (k : String) (v : KwVal) : Kwargs :=
  if kw.any fun p => p.1 = k then
    kw.map fun p => if p.1 = k then (k, v) else p
  else kw ++ [(k, v)]

/-- Whether a key is present in a kwargs dict. -/
def hasKey (kw : Kwargs) (k : String) : Bool := kw.any fun p => p.1 = k

/-- A `Task`: the pair `(args, kwargs)` describing one invocation. -/
structure Task where
  args : Args
  kwargs : Kwargs
deriving DecidableEq

/-- What the raw workload function does on one call: return a value or raise
an exception carrying the given message. -/
inductive TaskOutcome where
  | ok (v : Int)
  | exn (msg : String)
deriving DecidableEq

/-- An entry of the returned result list: a success value, or (with
`abort_on_error=False`) the string form of the task's exception. -/
inductive TaskRes where
  | val (v : Int)
  | errStr (msg : String)
deriving DecidableEq

/-- One record appended to the shared log file by the wrapper: the task
index, the error flag, and the result or exception text. -/
structure LogEntry where
  task_idx : Nat
  error : Bool
  text : String
deriving DecidableEq

/-- The in-place mutation
`kwargs.update({"incremental": incremental, "num_attempts": num_attempts})`
that the wrapper performs on the caller's task before invoking the workload
function. -/
def updTask (incremental : Bool) (num_attempts : Nat) (t : Task) : Task :=
  Task.mk t.args
    (updateKey (updateKey t.kwargs "incremental" (.bool incremental))
      "num_attempts" (.nat num_attempts))

/-- The wrapper produced by `_parallel_execute_decorator`: validates the
control parameters, updates the task's kwargs dict in place, runs the
workload function on the task's args and the updated kwargs, appends the
outcome to the shared log file (this happens before any re-raise), and either
re-raises the exception (`abort_on_error=True`) or substitutes the
exception's string form as the task's result (`abort_on_error=False`).
Returns the caller's task as mutated, the log lines appended, and the
outcome (`.error` models a propagated exception). -/
def wrapper (f : Args → Kwargs → TaskOutcome) (task_idx task_len : Nat)
    (incremental abort_on_error : Bool) (num_attempts : Nat) (t : Task) :
    Task × List LogEntry × Except String TaskRes :=
  if ¬ (task_idx < task_len) then
    (t, [], .error "dassert_lt(task_idx, task_len)")
  else if ¬ (1 ≤ num_attempts) then
    (t, [], .error "dassert_lte(1, num_attempts)")
  else
    let t2 := updTask incremental num_attempts t
    match f t.args t2.kwargs with
    | .ok v => (t2, [⟨task_idx, false, toString v⟩], .ok (.val v))
    | .exn e =>
        if abort_on_error then (t2, [⟨task_idx, true, e⟩], .error e)
        else (t2, [⟨task_idx, true, e⟩], .ok (.errStr e))

/-- The execution loop of `parallel_execute`: apply the wrapper to the tasks
in order; a propagated exception stops the loop — the remaining tasks are
neither run nor mutated and no result list is produced. -/
def run_serial (f : Args → Kwargs → TaskOutcome)
    (incremental abort_on_error : Bool) (num_attempts task_len : Nat)
    (task_idx : Nat) (tasks : List Task) :
    List Task × List LogEntry × Except String (List TaskRes) :=
  match tasks with
  | [] => ([], [], .ok [])
  | t :: ts =>
    let w := wrapper f task_idx task_len incremental abort_on_error
      num_attempts t
    match w.2.2 with
    | .error e => (w.1 :: ts, w.2.1, .error e)
    | .ok r =>
      let rest := run_serial f incremental abort_on_error num_attempts
        task_len (task_idx + 1) ts
      (w.1 :: rest.1, w.2.1 ++ rest.2.1, rest.2.2.map fun l => r :: l)

/-- `parallel_execute`: on a dry run, print the workload and return `None`
without executing or mutating anything; otherwise run every task through the
logging wrapper (the serial path is modelled; the pooled path applies the
identical wrapper to every task and collects results in input task order).
Returns the final state of the caller's task list, the accumulated log-file
contents, and `none` (dry run) or the run's outcome. -/
def parallel_execute (f : Args → Kwargs → TaskOutcome) (tasks : List Task)
    (dry_run incremental abort_on_error : Bool) (num_attempts : Nat) :
    List Task × List LogEntry × Option (Except String (List TaskRes)) :=
  if dry_run then (tasks, [], none)
  else
    let r := run_serial f incremental abort_on_error num_attempts
      tasks.length 0 tasks
    (r.1, r.2.1, some r.2.2)

/-- Unfolding of the wrapper when the control-parameter validations pass. -/
theorem wrapper_run (f : Args → Kwargs → TaskOutcome) (idx n : Nat)
    (incr abort : Bool) (na : Nat) (t : Task) (h1 : idx < n)
    (h2 : 1 ≤ na) :
    wrapper f idx n incr abort na t =
      (updTask incr na t,
       match f t.args (updTask incr na t).kwargs with
       | .ok v => [⟨idx, false, toString v⟩]
       | .exn e => [⟨idx, true, e⟩],
       match f t.args (updTask incr na t).kwargs with
       | .ok v => .ok (.val v)
       | .exn e => if abort then .error e else .ok (.errStr e)) := by
  unfold wrapper
  rw [if_neg (by omega), if_neg (by omega)]
  cases hf : f t.args (updTask incr na t).kwargs with
  | ok v => simp [hf]
  | exn e =>
    simp only [hf]
    cases abort <;> simp

/-- Composition of the execution loop across an all-successful prefix. -/
theorem run_serial_append_ok (f : Args → Kwargs → TaskOutcome)
    (sv : Task → Int) (incr abort : Bool) (na : Nat) (hna : 1 ≤ na) :
    ∀ (as bs : List Task) (n idx : Nat), idx + as.length + bs.length ≤ n →
    (∀ t ∈ as, ∀ kw : Kwargs, f t.args kw = .ok (sv t)) →
    ∃ alog : List LogEntry,
      (run_serial f incr abort na n idx (as ++ bs)).1 =
        as.map (updTask incr na) ++
          (run_serial f incr abort na n (idx + as.length) bs).1 ∧
      (run_serial f incr abort na n idx (as ++ bs)).2.1 =
        alog ++ (run_serial f incr abort na n (idx + as.length) bs).2.1 ∧
      (run_serial f incr abort na n idx (as ++ bs)).2.2 =
        (run_serial f incr abort na n (idx + as.length) bs).2.2.map
          (fun l => as.map (fun t => TaskRes.val (sv t)) ++ l) ∧
      alog.length = as.length ∧ ∀ en ∈ alog, en.error = false := by
  intro as
  induction as with
  | nil =>
    intro bs n idx hn hok
    refine ⟨[], by simp, by simp, ?_, rfl, by simp⟩
    simp only [List.nil_append, List.length_nil, Nat.add_zero, List.map_nil]
    cases h : (run_serial f incr abort na n idx bs).2.2 <;>
      simp [h, Except.map]
  | cons a as ih =>
    intro bs n idx hn hok
    have h1 : idx < n := by
      simp [List.length_cons] at hn
      omega
    have hw := wrapper_run f idx n incr abort na a h1 hna
    rw [hok a (by simp) (updTask incr na a).kwargs] at hw
    obtain ⟨alog, ha1, ha2, ha3, ha4, ha5⟩ :=
      ih bs n (idx + 1) (by simp at hn ⊢; omega) fun t ht kw =>
        hok t (by simp [ht]) kw
    have hidx : idx + 1 + as.length = idx + (as.length + 1) := by omega
    rw [hidx] at ha1 ha2 ha3
    refine ⟨⟨idx, false, toString (sv a)⟩ :: alog, ?_, ?_, ?_, by simp [ha4],
      ?_⟩
    · show (run_serial f incr abort na n idx (a :: (as ++ bs))).1 = _
      simp only [run_serial, hw]
      simp [ha1, List.length_cons]
    · show (run_serial f incr abort na n idx (a :: (as ++ bs))).2.1 = _
      simp only [run_serial, hw]
      simp [ha2, List.length_cons]
    · show (run_serial f incr abort na n idx (a :: (as ++ bs))).2.2 = _
      simp only [run_serial, hw]
      rw [ha3]
      cases h : (run_serial f incr abort na n (idx + (as.length + 1)) bs).2.2
        <;> simp [h, Except.map, List.length_cons]
    · intro en hen
      rcases List.mem_cons.mp hen with h | h
      · rw [h]
      · exact ha5 en h

/-- The execution loop on an all-successful task list. -/
theorem run_serial_all_ok (f : Args → Kwargs → TaskOutcome)
    (sv : Task → Int) (incr abort : Bool) (na : Nat) (hna : 1 ≤ na)
    (as : List Task) (n idx : Nat) (hn : idx + as.length ≤ n)
    (hok : ∀ t ∈ as, ∀ kw : Kwargs, f t.args kw = .ok (sv t)) :
    ∃ alog : List LogEntry,
      (run_serial f incr abort na n idx as).1 = as.map (updTask incr na) ∧
      (run_serial f incr abort na n idx as).2.1 = alog ∧
      (run_serial f incr abort na n idx as).2.2 =
        .ok (as.map fun t => TaskRes.val (sv t)) ∧
      alog.length = as.length ∧ ∀ en ∈ alog, en.error = false := by
  obtain ⟨alog, h1, h2, h3, h4, h5⟩ :=
    run_serial_append_ok f sv incr abort na hna as [] n idx
      (by simp only [List.length_nil, Nat.add_zero]; exact hn) hok
  simp only [List.append_nil, run_serial, Except.map] at h1 h2 h3
  exact ⟨alog, h1, h2, h3, h4, h5⟩

/-- One step of the loop on a failing task with `abort_on_error = True`: the
failure is logged, the exception propagates, and the remaining tasks are left
untouched. -/
theorem run_serial_fail_head_abort (f : Args → Kwargs → TaskOutcome)
    (incr : Bool) (na : Nat) (hna : 1 ≤ na) (tf : Task) (post : List Task)
    (e : String) (n idx : Nat) (hidx : idx < n)
    (hfail : ∀ kw : Kwargs, f tf.args kw = .exn e) :
    (run_serial f incr true na n idx (tf :: post)).1 =
        updTask incr na tf :: post ∧
    (run_serial f incr true na n idx (tf :: post)).2.1 =
        [⟨idx, true, e⟩] ∧
    (run_serial f incr true na n idx (tf :: post)).2.2 = .error e := by
  have hw := wrapper_run f idx n incr true na tf hidx hna
  rw [hfail ((updTask incr na tf).kwargs)] at hw
  simp at hw
  refine ⟨?_, ?_, ?_⟩ <;> simp only [run_serial, hw]

/-- One step of the loop on a failing task with `abort_on_error = False`,
followed by an all-successful tail: the failure is logged, its string form
becomes the task's result entry, and the tail runs normally. -/
theorem run_serial_fail_head_noabort (f : Args → Kwargs → TaskOutcome)
    (sv : Task → Int) (incr : Bool) (na : Nat) (hna : 1 ≤ na) (tf : Task)
    (post : List Task) (e : String) (n idx : Nat)
    (hn : idx + 1 + post.length ≤ n)
    (hfail : ∀ kw : Kwargs, f tf.args kw = .exn e)
    (hpost : ∀ t ∈ post, ∀ kw : Kwargs, f t.args kw = .ok (sv t)) :
    ∃ blog : List LogEntry,
      (run_serial f incr false na n idx (tf :: post)).1 =
          updTask incr na tf :: post.map (updTask incr na) ∧
      (run_serial f incr false na n idx (tf :: post)).2.1 =
          ⟨idx, true, e⟩ :: blog ∧
      (run_serial f incr false na n idx (tf :: post)).2.2 =
          .ok (.errStr e :: post.map fun t => TaskRes.val (sv t)) ∧
      ∀ en ∈ blog, en.error = false := by
  have hw := wrapper_run f idx n incr false na tf (by omega) hna
  rw [hfail ((updTask incr na tf).kwargs)] at hw
  simp at hw
  obtain ⟨blog, h1, h2, h3, _, h5⟩ :=
    run_serial_all_ok f sv incr false na hna post n (idx + 1) hn hpost
  refine ⟨blog, ?_, ?_, ?_, h5⟩
  · simp only [run_serial, hw]
    rw [h1]
  · simp only [run_serial, hw]
    rw [h2]
    rfl
  · simp only [run_serial, hw]
    rw [h3]
    rfl

/-- **C6**: for a workload in which exactly one task raises while all tasks
before and after it succeed, the harness behaves as follows.  With
`abort_on_error=True` the originating exception propagates (no result list is
returned) and the remaining tasks are not run (they are left untouched).
With `abort_on_error=False` the run returns a full-length result list whose
entry at the failing position is the exception's string form while all other
entries hold their tasks' results.  In both cases the failure — and only it —
is recorded as an error line in the shared log file. -/
theorem C6_single_failure_abort_policies (f : Args → Kwargs → TaskOutcome)
    (sv : Task → Int) (pre post : List Task) (tf : Task) (e : String)
    (incr : Bool) (na : Nat) (hna : 1 ≤ na)
    (hpre : ∀ t ∈ pre, ∀ kw : Kwargs, f t.args kw = .ok (sv t))
    (hfail : ∀ kw : Kwargs, f tf.args kw = .exn e)
    (hpost : ∀ t ∈ post, ∀ kw : Kwargs, f t.args kw = .ok (sv t)) :
    (parallel_execute f (pre ++ tf :: post) false incr true na).2.2 =
        some (.error e) ∧
    (parallel_execute f (pre ++ tf :: post) false incr true na).1.drop
        (pre.length + 1) = post ∧
    ((⟨pre.length, true, e⟩ : LogEntry) ∈
        (parallel_execute f (pre ++ tf :: post) false incr true na).2.1 ∧
      ∀ en ∈ (parallel_execute f (pre ++ tf :: post) false incr true na).2.1,
        en.error = true → en = ⟨pre.length, true, e⟩) ∧
    (parallel_execute f (pre ++ tf :: post) false incr false na).2.2 =
        some (.ok (pre.map (fun t => TaskRes.val (sv t)) ++
          TaskRes.errStr e :: post.map fun t => TaskRes.val (sv t))) ∧
    (pre.map (fun t => TaskRes.val (sv t)) ++
        TaskRes.errStr e :: post.map fun t => TaskRes.val (sv t)).length =
      (pre ++ tf :: post).length ∧
    (pre.map (fun t => TaskRes.val (sv t)) ++
        TaskRes.errStr e :: post.map fun t => TaskRes.val (sv t))[
          pre.length]? = some (.errStr e) ∧
    ((⟨pre.length, true, e⟩ : LogEntry) ∈
        (parallel_execute f (pre ++ tf :: post) false incr false na).2.1 ∧
      ∀ en ∈
        (parallel_execute f (pre ++ tf :: post) false incr false na).2.1,
        en.error = true → en = ⟨pre.length, true, e⟩) := by
  have hlen : (pre ++ tf :: post).length =
      pre.length + 1 + post.length := by
    simp only [List.length_append, List.length_cons]
    omega
  -- abort_on_error = True
  obtain ⟨alogT, hT1, hT2, hT3, _, hT5⟩ :=
    run_serial_append_ok f sv incr true na hna pre (tf :: post)
      (pre ++ tf :: post).length 0
      (by simp only [List.length_append, List.length_cons]; omega) hpre
  obtain ⟨hF1, hF2, hF3⟩ :=
    run_serial_fail_head_abort f incr na hna tf post e
      (pre ++ tf :: post).length (0 + pre.length)
      (by simp only [List.length_append, List.length_cons]; omega) hfail
  -- abort_on_error = False
  obtain ⟨alogF, hG1, hG2, hG3, _, hG5⟩ :=
    run_serial_append_ok f sv incr false na hna pre (tf :: post)
      (pre ++ tf :: post).length 0
      (by simp only [List.length_append, List.length_cons]; omega) hpre
  obtain ⟨blog, hH1, hH2, hH3, hH5⟩ :=
    run_serial_fail_head_noabort f sv incr na hna tf post e
      (pre ++ tf :: post).length (0 + pre.length)
      (by simp only [List.length_append, List.length_cons]; omega) hfail
      hpost
  simp only [parallel_execute, if_neg (Bool.false_ne_true)]
  refine ⟨?_, ?_, ?_, ?_, by simp, ?_, ?_⟩
  · rw [hT3, hF3]
    rfl
  · rw [hT1, hF1]
    have heq : pre.map (updTask incr na) ++ updTask incr na tf :: post =
        (pre.map (updTask incr na) ++ [updTask incr na tf]) ++ post := by
      simp
    rw [heq, List.drop_left' (by simp)]
  · constructor
    · rw [hT2, hF2]
      simp
    · intro en hen herr
      rw [hT2, hF2] at hen
      rcases List.mem_append.mp hen with h | h
      · exact absurd herr (by simp [hT5 en h])
      · simpa using h
  · rw [hG3, hH3]
    rfl
  · rw [List.getElem?_append_right (by simp)]
    simp
  · constructor
    · rw [hG2, hH2]
      simp
    · intro en hen herr
      rw [hG2, hH2] at hen
      rcases List.mem_append.mp hen with h | h
      · exact absurd herr (by simp [hG5 en h])
      · rcases List.mem_cons.mp h with h2 | h2
        · simpa using h2
        · exact absurd herr (by simp [hH5 en h2])

/-- A workload function that raises exactly on the argument list `[1]`. -/
def c6f : Args → Kwargs → TaskOutcome := fun a _ =>
  if a = [1] then .exn "boom" else .ok (a.headD 0)

/-- The success value of a task under `c6f`. -/
def c6sv : Task → Int := fun t => t.args.headD 0

/-- Witness for C6 on a three-task workload whose middle task raises
`"boom"`: aborting propagates the exception; continuing returns
`[0, "boom", 2]`. -/
theorem C6_single_failure_abort_policies_witness :
    ((1 : Nat) ≤ 1 ∧
      (∀ kw : Kwargs, c6f (Task.mk [1] []).args kw = .exn "boom")) ∧
    (parallel_execute c6f [⟨[0], []⟩, ⟨[1], []⟩, ⟨[2], []⟩]
        false true true 1).2.2 = some (.error "boom") ∧
    (parallel_execute c6f [⟨[0], []⟩, ⟨[1], []⟩, ⟨[2], []⟩]
        false true false 1).2.2 =
      some (.ok [.val 0, .errStr "boom", .val 2]) := by
  have hpre : ∀ t ∈ [Task.mk [0] []], ∀ kw : Kwargs,
      c6f t.args kw = .ok (c6sv t) := by
    intro t ht kw
    have h := List.mem_singleton.mp ht
    subst h
    rfl
  have hpost : ∀ t ∈ [Task.mk [2] []], ∀ kw : Kwargs,
      c6f t.args kw = .ok (c6sv t) := by
    intro t ht kw
    have h := List.mem_singleton.mp ht
    subst h
    rfl
  have happ := C6_single_failure_abort_policies c6f c6sv
    [⟨[0], []⟩] [⟨[2], []⟩] ⟨[1], []⟩ "boom" true 1 (le_refl 1)
    hpre (fun kw => rfl) hpost
  refine ⟨⟨le_refl 1, fun kw => rfl⟩, ?_, ?_⟩
  · simpa using happ.1
  · have h := happ.2.2.2.1
    simpa [c6sv] using h

/-- Presence of the updated key after a `dict` update. -/
theorem hasKey_updateKey_self (kw : Kwargs) (k : String) (v : KwVal) :
    hasKey (updateKey kw k v) k = true := by
  unfold hasKey updateKey
  split
  · rename_i h
    rw [List.any_eq_true] at h ⊢
    obtain ⟨p, hp, hpk⟩ := h
    have hpk2 : p.1 = k := by simpa using hpk
    exact ⟨(k, v), List.mem_map.mpr ⟨p, hp, by simp [hpk2]⟩, by simp⟩
  · rw [List.any_eq_true]
    exact ⟨(k, v), by simp, by simp⟩

/-- A `dict` update never removes an existing key. -/
theorem hasKey_updateKey_mono (kw : Kwargs) (k k2 : String) (v : KwVal)
    (h : hasKey kw k2 = true) : hasKey (updateKey kw k v) k2 = true := by
  unfold hasKey at h ⊢
  unfold updateKey
  rw [List.any_eq_true] at h
  obtain ⟨p, hp, hpk⟩ := h
  have hpk2 : p.1 = k2 := by simpa using hpk
  split
  · rw [List.any_eq_true]
    by_cases hk : p.1 = k
    · exact ⟨(k, v), List.mem_map.mpr ⟨p, hp, by simp [hk]⟩,
        by simp [← hk, hpk2]⟩
    · exact ⟨p, List.mem_map.mpr ⟨p, hp, by simp [hk]⟩, by simp [hpk2]⟩
  · rw [List.any_eq_true]
    exact ⟨p, by simp [hp], by simp [hpk2]⟩

/-- The kwargs dict of a wrapped task contains the two keys the wrapper
injects. -/
theorem updTask_hasKeys (incr : Bool) (na : Nat) (t : Task) :
    hasKey (updTask incr na t).kwargs "incremental" = true ∧
    hasKey (updTask incr na t).kwargs "num_attempts" = true := by
  constructor
  · exact hasKey_updateKey_mono _ _ _ _
      (hasKey_updateKey_self t.kwargs "incremental" (.bool incr))
  · exact hasKey_updateKey_self _ "num_attempts" (.nat na)

/-- Every executed task (one log line is appended per executed task, in
order) ends up in the returned task list as its `updTask` image. -/
theorem run_serial_executed_updated (f : Args → Kwargs → TaskOutcome)
    (incr abort : Bool) (na : Nat) (hna : 1 ≤ na) :
    ∀ (ts : List Task) (n idx : Nat), idx + ts.length ≤ n →
      (∀ j : Nat, j < (run_serial f incr abort na n idx ts).2.1.length →
        (run_serial f incr abort na n idx ts).1[j]? =
          (ts[j]?).map (updTask incr na)) ∧
      (run_serial f incr abort na n idx ts).2.1.length ≤ ts.length ∧
      (ts ≠ [] → (run_serial f incr abort na n idx ts).2.1 ≠ []) := by
  intro ts
  induction ts with
  | nil =>
    intro n idx hn
    exact ⟨fun j hj => by simp [run_serial] at hj, by simp [run_serial],
      fun h => absurd rfl h⟩
  | cons t ts ih =>
    intro n idx hn
    have h1 : idx < n := by
      simp only [List.length_cons] at hn
      omega
    have hw := wrapper_run f idx n incr abort na t h1 hna
    have hrec := ih n (idx + 1)
      (by simp only [List.length_cons] at hn ⊢; omega)
    cases hf : f t.args (updTask incr na t).kwargs with
    | ok v =>
      rw [hf] at hw
      simp at hw
      refine ⟨?_, ?_, fun _ => by simp [run_serial, hw]⟩
      · intro j hj
        match j with
        | 0 => simp [run_serial, hw]
        | j + 1 =>
          simp only [run_serial, hw] at hj ⊢
          have := hrec.1 j (by simpa using hj)
          simpa using this
      · simp only [run_serial, hw, List.length_cons, List.length_append,
          List.length_singleton]
        have := hrec.2.1
        simp at this ⊢
        omega
    | exn e =>
      rw [hf] at hw
      cases abort with
      | true =>
        simp at hw
        refine ⟨?_, ?_, fun _ => by simp [run_serial, hw]⟩
        · intro j hj
          simp only [run_serial, hw] at hj ⊢
          have hj0 : j = 0 := by simpa [Nat.lt_one_iff] using hj
          subst hj0
          simp
        · simp [run_serial, hw]
      | false =>
        simp at hw
        refine ⟨?_, ?_, fun _ => by simp [run_serial, hw]⟩
        · intro j hj
          match j with
          | 0 => simp [run_serial, hw]
          | j + 1 =>
            simp only [run_serial, hw] at hj ⊢
            have := hrec.1 j (by simpa using hj)
            simpa using this
        · simp only [run_serial, hw, List.length_cons]
          have := hrec.2.1
          simp at this ⊢
          omega

/-- **C10**: a non-dry-run `parallel_execute` mutates the caller's `Workload`
in place: the wrapper updates each executed task's kwargs dict with the keys
`"incremental"` and `"num_attempts"` before invoking the task function, so
afterwards every executed task (one log line is appended per executed task)
appears in the task list as its updated version, whose kwargs contain both
keys; at least one task is executed when the workload is non-empty, whereas a
dry run leaves the workload untouched. -/
theorem C10_workload_kwargs_mutation (f : Args → Kwargs → TaskOutcome)
    (tasks : List Task) (incr abort : Bool) (na : Nat) (hna : 1 ≤ na) :
    (∀ j : Nat,
      j < (parallel_execute f tasks false incr abort na).2.1.length →
      (parallel_execute f tasks false incr abort na).1[j]? =
          (tasks[j]?).map (updTask incr na) ∧
        ∃ t0 : Task, tasks[j]? = some t0 ∧
          hasKey (updTask incr na t0).kwargs "incremental" = true ∧
          hasKey (updTask incr na t0).kwargs "num_attempts" = true) ∧
    (tasks ≠ [] →
      (parallel_execute f tasks false incr abort na).2.1 ≠ []) ∧
    (parallel_execute f tasks true incr abort na).1 = tasks := by
  have h := run_serial_executed_updated f incr abort na hna tasks
    tasks.length 0 (by omega)
  refine ⟨?_, ?_, by simp [parallel_execute]⟩
  · intro j hj
    simp only [parallel_execute, if_neg (Bool.false_ne_true)] at hj ⊢
    have hjlen : j < tasks.length := lt_of_lt_of_le hj h.2.1
    exact ⟨h.1 j hj, tasks[j], (List.getElem?_eq_getElem hjlen),
      (updTask_hasKeys incr na tasks[j]).1,
      (updTask_hasKeys incr na tasks[j]).2⟩
  · intro hne
    simp only [parallel_execute, if_neg (Bool.false_ne_true)]
    exact h.2.2 hne

/-- Witness for C10 on a one-task workload whose kwargs initially hold only
the key `"x"`: after execution the task's kwargs contain `"incremental"` and
`"num_attempts"` as well. -/
theorem C10_workload_kwargs_mutation_witness :
    (1 : Nat) ≤ 1 ∧
    ((∀ j : Nat,
      j < (parallel_execute c6f [⟨[0], [("x", KwVal.nat 7)]⟩] false true
          true 1).2.1.length →
      (parallel_execute c6f [⟨[0], [("x", KwVal.nat 7)]⟩] false true true
          1).1[j]? =
          ((([⟨[0], [("x", KwVal.nat 7)]⟩] : List Task))[j]?).map
            (updTask true 1) ∧
        ∃ t0 : Task,
          (([⟨[0], [("x", KwVal.nat 7)]⟩] : List Task))[j]? = some t0 ∧
          hasKey (updTask true 1 t0).kwargs "incremental" = true ∧
          hasKey (updTask true 1 t0).kwargs "num_attempts" = true) ∧
    (([⟨[0], [("x", KwVal.nat 7)]⟩] : List Task) ≠ [] →
      (parallel_execute c6f [⟨[0], [("x", KwVal.nat 7)]⟩] false true true
          1).2.1 ≠ []) ∧
    (parallel_execute c6f [⟨[0], [("x", KwVal.nat 7)]⟩] true true true
        1).1 = [⟨[0], [("x", KwVal.nat 7)]⟩]) :=
  ⟨le_refl 1,
   C10_workload_kwargs_mutation c6f [⟨[0], [("x", KwVal.nat 7)]⟩] true true
     1 (le_refl 1)⟩

/-! ### `core/dataflow/models.py` — `SkLearnModel` NaN policy -/

/-- A dataframe row (one cell per column). -/
abbrev Row := List Val

/-- Whether some row of the table has a missing value in some column:
`df_in[df_in.isna().any(axis=1)].index` is non-empty. -/
def hasNaNRow (df : List Row) : Bool :=
  df.any fun r => r.any fun v => v.isNone

/-- `SkLearnModel.fit`: asserts
`dbg.dassert(df_in[df_in.isna().any(axis=1)].index.empty, "NaNs detected at
index ...")` — any row with a missing value in any column is a hard failure —
and otherwise fits on every row of the input (no row filtering).  The rows
the estimator is trained on are returned. -/
def SkLearnModel.fit (df_in : List Row) : Except String (List Row) :=
  if hasNaNRow df_in then .error "NaNs detected" else .ok df_in

/-- Modelled from the spec: `core.data_adapters.transform_to_sklearn_old`
(called by `SkLearnModel._to_sklearn_format` on both `fit` and `predict`) is
not under `src/`; per the spec the node "fails outright if any row of the
input contains a missing value in any column (no partial-NaN tolerance)", and
performs no row filtering. -/
def transform_to_sklearn_old (df : List Row) : Except String (List Row) :=
  if hasNaNRow df then .error "NaNs detected" else .ok df

/-- `SkLearnModel.predict`: converts the input via
`transform_to_sklearn_old`, then asserts the model has been fit
(`"Model not found! Check if fit has been run."`); on success every row of
the input is used (no row filtering). -/
def SkLearnModel.predict (model : Option (List Row → List Val))
    (df_in : List Row) : Except String (List Row) :=
  match transform_to_sklearn_old df_in with
  | .error e => .error e
  | .ok x =>
    match model with
    | none => .error "Model not found! Check if fit has been run."
    | some _ => .ok x

/-- **C7**: `SkLearnModel` fails outright, on both `fit` and `predict`, as
soon as any row of the input contains a missing value in any column; on a
fully observed input both succeed and operate on every row — there is no
partial-NaN tolerance and no row filtering. -/
theorem C7_sklearn_nan_rejection (df : List Row) :
    (hasNaNRow df = true ↔ ∃ r ∈ df, ∃ v ∈ r, v = none) ∧
    (hasNaNRow df = true →
      SkLearnModel.fit df = .error "NaNs detected" ∧
      ∀ model, SkLearnModel.predict model df = .error "NaNs detected") ∧
    (hasNaNRow df = false →
      SkLearnModel.fit df = .ok df ∧
      ∀ g, SkLearnModel.predict (some g) df = .ok df) := by
  refine ⟨?_, ?_, ?_⟩
  · unfold hasNaNRow
    rw [List.any_eq_true]
    constructor
    · rintro ⟨r, hr, h⟩
      rw [List.any_eq_true] at h
      obtain ⟨v, hv, hnone⟩ := h
      exact ⟨r, hr, v, hv, by simpa [Option.isNone_iff_eq_none] using hnone⟩
    · rintro ⟨r, hr, v, hv, hnone⟩
      refine ⟨r, hr, ?_⟩
      rw [List.any_eq_true]
      exact ⟨v, hv, by simp [hnone]⟩
  · intro h
    refine ⟨?_, ?_⟩
    · unfold SkLearnModel.fit
      rw [if_pos h]
    · intro model
      unfold SkLearnModel.predict transform_to_sklearn_old
      rw [if_pos h]
  · intro h
    refine ⟨?_, ?_⟩
    · unfold SkLearnModel.fit
      rw [if_neg (by simp [h])]
    · intro g
      unfold SkLearnModel.predict transform_to_sklearn_old
      rw [if_neg (by simp [h])]

/-- Witness for C7: a table whose second row has a missing cell makes both
`fit` and `predict` fail; the fully observed table is fit and predicted on
all of its rows. -/
theorem C7_sklearn_nan_rejection_witness :
    (hasNaNRow [[some 1, some 2], [some 3, none]] = true ∧
      SkLearnModel.fit [[some 1, some 2], [some 3, none]] =
        .error "NaNs detected" ∧
      SkLearnModel.predict none [[some 1, some 2], [some 3, none]] =
        .error "NaNs detected") ∧
    (hasNaNRow [[some 1, some 2], [some 3, some 4]] = false ∧
      SkLearnModel.fit [[some 1, some 2], [some 3, some 4]] =
        .ok [[some 1, some 2], [some 3, some 4]] ∧
      SkLearnModel.predict (some fun _ => [])
          [[some 1, some 2], [some 3, some 4]] =
        .ok [[some 1, some 2], [some 3, some 4]]) :=
  ⟨⟨by decide,
    ((C7_sklearn_nan_rejection [[some 1, some 2], [some 3, none]]).2.1
      (by decide)).1,
    ((C7_sklearn_nan_rejection [[some 1, some 2], [some 3, none]]).2.1
      (by decide)).2 none⟩,
   ⟨by decide,
    ((C7_sklearn_nan_rejection [[some 1, some 2], [some 3, some 4]]).2.2
      (by decide)).1,
    ((C7_sklearn_nan_rejection [[some 1, some 2], [some 3, some 4]]).2.2
      (by decide)).2 (fun _ => [])⟩⟩

end Kaizenflow
